import Mathlib

/-!
Verification of the ViralVault infrastructure entry point
(`src/infra/__main__.py`) and of the `LambdaService` provisioning facade it
invokes.  The entry point is embedded directly from the source; the
`LambdaService` implementation is not part of the visible fragment, so it is
modelled from the specification where noted.
-/

namespace ViralVault

/-- A process environment: maps variable names to their values, `none`
meaning the variable is absent. -/
abbrev Env := String → Option String

/-- The Python `os.getenv(key, default)`: the value when the variable is set
(even when set to the empty string), the default only when absent. -/
def getenv (env : Env) (key default : String) : String :=
  (env key).getD default

/-- The environment-variable names the entry point passes to the facade
(`src/infra/__main__.py`, lines 8-27). -/
def environment_vars : List String :=
  [ "NOTION_API_KEY"
  , "NOTION_DATABASE_ID"
  , "STRIPE_API_KEY"
  , "FIREBASE_PROJECT_ID"
  , "FIREBASE_CLIENT_EMAIL"
  , "FIREBASE_PRIVATE_KEY"
  , "FIREBASE_AUTH_DOMAIN"
  , "FIREBASE_STORAGE_BUCKET"
  , "FIREBASE_MESSAGING_SENDER_ID"
  , "FIREBASE_APP_ID"
  , "FIREBASE_MEASUREMENT_ID"
  , "CLAUDE_API_KEY"
  , "FRONTEND_URL"
  , "OPENAI_API_KEY"
  , "R2_ACCOUNT_ID"
  , "R2_ACCESS_KEY_ID"
  , "R2_SECRET_ACCESS_KEY"
  , "R2_BUCKET_NAME" ]

/-- The image tag computed by the entry point
(`src/infra/__main__.py`, line 28): `os.getenv` of IMAGE_TAG with the
default value latest. -/
def image_tag (env : Env) : String :=
  getenv env "IMAGE_TAG" "latest"

/-- The argument triple `(name, environment_vars, image_tag)` the entry point
passes to the `LambdaService` constructor (`src/infra/__main__.py`,
lines 6-29). -/
def facadeArguments (env : Env) : String × List String × String :=
  ("viral-vault", environment_vars, image_tag env)

/-! ### The provisioning model (spec-modelled where the source is absent) -/

/-- The validated input of the facade (spec §3, *ServiceSpec*). -/
structure ServiceSpec where
  name : String
  env_vars : List String
  image_tag : String
deriving DecidableEq

/-- Construction-time validation failures (spec §7). -/
inductive ConfigurationError where
  | invalidName
  | invalidEnvVars
deriving DecidableEq

/-- Apply-time failures (spec §7): an environment variable whose secret could
not be resolved. -/
inductive ApplyError where
  | missingSecret (var : String)
deriving DecidableEq

/-- A declared cloud resource (spec §2: repository, compute function,
endpoint, each keyed by the service name). -/
inductive Resource where
  | repository (name : String)
  | function (name : String)
  | endpoint (name : String)
deriving DecidableEq

/-- Modelled from the spec: the `LambdaService` implementation is not in the
visible fragment; spec §4.2 says the registry repository name, and hence its
URL, is derived deterministically from `ServiceSpec.name`. -/
def repository_url (name : String) : String :=
  "123456789012.dkr.ecr.us-east-1.amazonaws.com/" ++ name

/-- Modelled from the spec: the `LambdaService` implementation is not in the
visible fragment; spec §4.4 says the endpoint exposes an invocation URL
stable across redeployments, derived from the service identity. -/
def invocation_url (name : String) : String :=
  "https://" ++ name ++ ".lambda-url.us-east-1.on.aws/"

/-- Modelled from the spec: construction-time validation of §4.1 — the name
must be non-empty, and `environment_vars` must contain no duplicate names and
no empty strings. -/
def validSpec (name : String) (env_vars : List String) : Bool :=
  name != "" && decide env_vars.Nodup && env_vars.all (fun v => v != "")

/-- The constructed facade: its validated spec together with the resources it
declared, in declaration order (spec §4.1). -/
structure LambdaService where
  spec : ServiceSpec
  declared : List Resource
deriving DecidableEq

/-- `get_url()` accessor of the facade (spec §4.1), read as the resolved
invocation URL once the engine has applied the endpoint resource. -/
def LambdaService.get_url (s : LambdaService) : String :=
  invocation_url s.spec.name

/-- `get_ecr_repository_url()` accessor of the facade (spec §4.1), read as
the resolved repository URL once the engine has applied the repository. -/
def LambdaService.get_ecr_repository_url (s : LambdaService) : String :=
  repository_url s.spec.name

/-- Modelled from the spec: facade construction (§4.1) — validate first, and
only then declare the three resources in order repository, function,
endpoint.  The first component of the result is the list of resources
declared by the run, so a validation failure is visibly a failure *before*
any resource is declared. -/
def constructService (name : String) (env_vars : List String) (tag : String) :
    List Resource × Except ConfigurationError LambdaService :=
  if validSpec name env_vars then
    let rs := [Resource.repository name, Resource.function name,
               Resource.endpoint name]
    (rs, Except.ok ⟨⟨name, env_vars, tag⟩, rs⟩)
  else if name == "" then ([], Except.error ConfigurationError.invalidName)
  else ([], Except.error ConfigurationError.invalidEnvVars)

/-- The entry point (`src/infra/__main__.py`): construct the facade with the
fixed name, the fixed variable list and the environment-derived tag, then
export exactly the two named outputs bound to the two accessors
(lines 31-33). -/
def mainProgram (env : Env) :
    Except ConfigurationError (List (String × String)) :=
  match (constructService "viral-vault" environment_vars (image_tag env)).2 with
  | Except.error e => Except.error e
  | Except.ok svc =>
      Except.ok [("api_url", svc.get_url),
                 ("ecr_repository_url", svc.get_ecr_repository_url)]

/-- The state of the deployed container image: the tag used to reference it
and the content digest it currently points at (spec §4.3). -/
structure ImageState where
  tag : String
  digest : String
deriving DecidableEq

/-- Modelled from the spec: change detection for the compute function
(§4.3) — the `LambdaService` implementation is not in the visible fragment;
the spec requires the resource to redeploy when the underlying image digest
changes even if the tag string is unchanged (digest-aware, not tag-string
comparison). -/
def needsRedeployment (old curr : ImageState) : Bool :=
  old.digest != curr.digest || old.tag != curr.tag

/-- The secret/config resolver collaborator (spec §6): returns a value for a
variable name, or `none` as its explicit not-found signal. -/
abbrev Resolver := String → Option String

/-- Modelled from the spec: binding resolution of §4.3 — for each declared
variable name, resolve a value from the collaborator; fail with a
`MissingSecretError` naming the specific unresolved variable. -/
def resolveBindings (resolver : Resolver) :
    List String → Except ApplyError (List (String × String))
  | [] => Except.ok []
  | n :: rest =>
      match resolver n with
      | none => Except.error (ApplyError.missingSecret n)
      | some v =>
          match resolveBindings resolver rest with
          | Except.error e => Except.error e
          | Except.ok bs => Except.ok ((n, v) :: bs)

/-- Modelled from the spec: the apply phase (§4.1, §7) — the repository is
applied first; the compute function then resolves its bindings, and a
`MissingSecretError` aborts the run with the repository still applied
(not rolled back); on success all three resources are applied. -/
def applyService (s : ServiceSpec) (resolver : Resolver) :
    List Resource × Except ApplyError (List (String × String)) :=
  let repoApplied := [Resource.repository s.name]
  match resolveBindings resolver s.env_vars with
  | Except.error e => (repoApplied, Except.error e)
  | Except.ok bs =>
      (repoApplied ++ [Resource.function s.name, Resource.endpoint s.name],
       Except.ok bs)

/-- Modelled from the spec: the engine diff (§6, collaborator contract) —
the resources in the desired set not already present in the applied state. -/
def engineDiff (desired applied : List Resource) : List Resource :=
  desired.filter (fun r => !applied.contains r)

/-- Modelled from the spec: one engine apply run (§6) — create exactly the
resources the diff reports, leaving the rest of the state untouched. -/
def applyRun (desired : List Resource) (st : List Resource) : List Resource :=
  st ++ engineDiff desired st

/-- After an apply run, every desired resource is present in the state, so a
re-run with unchanged inputs has an empty diff. -/
theorem engineDiff_applyRun (desired st : List Resource) :
    engineDiff desired (applyRun desired st) = [] := by
  rw [engineDiff, List.filter_eq_nil_iff]
  intro r hr
  have hmem : r ∈ applyRun desired st := by
    rw [applyRun, List.mem_append]
    by_cases h : r ∈ st
    · exact Or.inl h
    · refine Or.inr ?_
      rw [engineDiff, List.mem_filter]
      exact ⟨hr, by simp [h]⟩
  simp [hmem]

/-! ### Claim theorems -/

/-- C1: for every image tag value, a provisioning run in which only the
underlying image digest changes while the tag string is unchanged (in
particular when it stays "latest") still triggers a new deployment of the
compute function: change detection is digest-aware, not tag-string
comparison. -/
theorem C1_digest_aware_redeployment (tag d1 d2 : String) (h : d1 ≠ d2) :
    needsRedeployment ⟨tag, d1⟩ ⟨tag, d2⟩ = true := by
  simp [needsRedeployment, h]

/-- C1 witness: holding the tag at "latest", a digest change alone triggers
redeployment. -/
theorem C1_digest_aware_redeployment_witness :
    needsRedeployment ⟨"latest", "sha256:aaa"⟩ ⟨"latest", "sha256:bbb"⟩
      = true :=
  C1_digest_aware_redeployment "latest" "sha256:aaa" "sha256:bbb" (by decide)

/-- C2: whatever the process environment, the entry point exports exactly
two outputs, named exactly "api_url" and "ecr_repository_url", bound
respectively to the `get_url` and `get_ecr_repository_url` accessors of the
constructed facade, and no other output. -/
theorem C2_exports_exactly_two (env : Env) :
    ∃ svc : LambdaService,
      (constructService "viral-vault" environment_vars (image_tag env)).2
        = Except.ok svc ∧
      mainProgram env =
        Except.ok [("api_url", svc.get_url),
                   ("ecr_repository_url", svc.get_ecr_repository_url)] := by
  have hv : validSpec "viral-vault" environment_vars = true := by decide
  refine ⟨⟨⟨"viral-vault", environment_vars, image_tag env⟩,
          [Resource.repository "viral-vault", Resource.function "viral-vault",
           Resource.endpoint "viral-vault"]⟩, ?_, ?_⟩
  · simp [constructService, hv]
  · simp [mainProgram, constructService, hv]

/-- C3: the image tag passed to the facade equals the value of IMAGE_TAG
when that variable is set, and equals "latest" when IMAGE_TAG is unset. -/
theorem C3_image_tag_from_env (env : Env) (v : String) :
    (env "IMAGE_TAG" = some v → image_tag env = v) ∧
    (env "IMAGE_TAG" = none → image_tag env = "latest") := by
  constructor <;> intro h <;> simp [image_tag, getenv, h]

/-- C3 witness: a set IMAGE_TAG is passed through; an absent one yields
"latest". -/
theorem C3_image_tag_from_env_witness :
    image_tag (fun k => if k = "IMAGE_TAG" then some "v42" else none) = "v42"
      ∧ image_tag (fun _ => none) = "latest" :=
  ⟨(C3_image_tag_from_env
      (fun k => if k = "IMAGE_TAG" then some "v42" else none) "v42").1
     (by simp),
   (C3_image_tag_from_env (fun _ => none) "v42").2 rfl⟩

/-- C4: for every process environment, the entry point constructs one
facade whose service name is "viral-vault", reads the two exports from that
construction, and after a successful apply the `get_url` accessor resolves
to a non-empty URL while `get_ecr_repository_url` resolves to a URL
containing "viral-vault". -/
theorem C4_single_facade_and_urls (env : Env) :
    ∃ svc : LambdaService,
      (constructService "viral-vault" environment_vars (image_tag env)).2
        = Except.ok svc ∧
      svc.spec.name = "viral-vault" ∧
      mainProgram env =
        Except.ok [("api_url", svc.get_url),
                   ("ecr_repository_url", svc.get_ecr_repository_url)] ∧
      svc.get_url ≠ "" ∧
      ∃ a b, svc.get_ecr_repository_url = a ++ "viral-vault" ++ b := by
  have hv : validSpec "viral-vault" environment_vars = true := by decide
  refine ⟨⟨⟨"viral-vault", environment_vars, image_tag env⟩,
          [Resource.repository "viral-vault", Resource.function "viral-vault",
           Resource.endpoint "viral-vault"]⟩, ?_, rfl, ?_, ?_, ?_⟩
  · simp [constructService, hv]
  · simp [mainProgram, constructService, hv]
  · show invocation_url "viral-vault" ≠ ""
    decide
  · exact ⟨"123456789012.dkr.ecr.us-east-1.amazonaws.com/", "",
      by simp [LambdaService.get_ecr_repository_url, repository_url]⟩

/-- C5: for every environment-variable list containing a duplicate name or
an empty-string name, constructing the facade fails with a
`ConfigurationError`, and the failure happens before any resource is
declared (the declared-resource trace of the run is empty). -/
theorem C5_invalid_env_vars_fail_fast (name : String) (vars : List String)
    (tag : String) (h : ¬ vars.Nodup ∨ "" ∈ vars) :
    (constructService name vars tag).1 = [] ∧
    ∃ e, (constructService name vars tag).2 = Except.error e := by
  have hv : validSpec name vars = false := by
    rcases h with h | h
    · simp [validSpec, h]
    · have hall : vars.all (fun v => v != "") = false := by
        rw [List.all_eq_false]
        exact ⟨"", h, by simp⟩
      simp [validSpec, hall]
  by_cases hn : (name == "") = true
  · exact ⟨by simp [constructService, hv, hn],
           ConfigurationError.invalidName, by simp [constructService, hv, hn]⟩
  · exact ⟨by simp [constructService, hv, hn],
           ConfigurationError.invalidEnvVars,
           by simp [constructService, hv, hn]⟩

/-- C5 witness: a duplicate variable name makes construction fail with no
resource declared. -/
theorem C5_invalid_env_vars_fail_fast_witness :
    (constructService "svc" ["A", "A"] "latest").1 = [] ∧
    ∃ e, (constructService "svc" ["A", "A"] "latest").2 = Except.error e :=
  C5_invalid_env_vars_fail_fast "svc" ["A", "A"] "latest"
    (Or.inl (by decide))

/-- C6: constructing the facade twice with identical valid inputs yields
the same repository URL and the same invocation URL, and re-running the
engine apply with no input changes produces an empty diff (zero resource
modifications). -/
theorem C6_idempotent_provisioning (name : String) (vars : List String)
    (tag : String) (s1 s2 : LambdaService) (st : List Resource)
    (h1 : (constructService name vars tag).2 = Except.ok s1)
    (h2 : (constructService name vars tag).2 = Except.ok s2) :
    s1.get_ecr_repository_url = s2.get_ecr_repository_url ∧
    s1.get_url = s2.get_url ∧
    engineDiff s1.declared (applyRun s1.declared st) = [] := by
  have hs : s1 = s2 := by
    rw [h1] at h2
    exact Except.ok.inj h2
  exact ⟨by rw [hs], by rw [hs], engineDiff_applyRun s1.declared st⟩

/-- C6 witness: a concrete valid construction, repeated, gives equal URLs
and an empty re-apply diff. -/
theorem C6_idempotent_provisioning_witness :
    (LambdaService.get_ecr_repository_url
        ⟨⟨"svc", ["A"], "latest"⟩,
         [Resource.repository "svc", Resource.function "svc",
          Resource.endpoint "svc"]⟩ =
      LambdaService.get_ecr_repository_url
        ⟨⟨"svc", ["A"], "latest"⟩,
         [Resource.repository "svc", Resource.function "svc",
          Resource.endpoint "svc"]⟩) ∧
    (LambdaService.get_url
        ⟨⟨"svc", ["A"], "latest"⟩,
         [Resource.repository "svc", Resource.function "svc",
          Resource.endpoint "svc"]⟩ =
      LambdaService.get_url
        ⟨⟨"svc", ["A"], "latest"⟩,
         [Resource.repository "svc", Resource.function "svc",
          Resource.endpoint "svc"]⟩) ∧
    engineDiff
      (LambdaService.declared
        ⟨⟨"svc", ["A"], "latest"⟩,
         [Resource.repository "svc", Resource.function "svc",
          Resource.endpoint "svc"]⟩)
      (applyRun
        (LambdaService.declared
          ⟨⟨"svc", ["A"], "latest"⟩,
           [Resource.repository "svc", Resource.function "svc",
            Resource.endpoint "svc"]⟩) []) = [] :=
  C6_idempotent_provisioning "svc" ["A"] "latest"
    ⟨⟨"svc", ["A"], "latest"⟩,
     [Resource.repository "svc", Resource.function "svc",
      Resource.endpoint "svc"]⟩
    ⟨⟨"svc", ["A"], "latest"⟩,
     [Resource.repository "svc", Resource.function "svc",
      Resource.endpoint "svc"]⟩
    [] rfl rfl

/-- C7: when the secret resolver has no value for a declared variable (here
"B" in the list consisting of "A" and "B"), apply fails with a
`MissingSecretError` naming that variable, and the already-applied
repository resource remains applied rather than being rolled back. -/
theorem C7_missing_secret_names_var (name tag : String) (resolver : Resolver)
    (v : String) (hA : resolver "A" = some v) (hB : resolver "B" = none) :
    applyService ⟨name, ["A", "B"], tag⟩ resolver =
      ([Resource.repository name],
       Except.error (ApplyError.missingSecret "B")) ∧
    Resource.repository name ∈
      (applyService ⟨name, ["A", "B"], tag⟩ resolver).1 := by
  have hres : resolveBindings resolver ["A", "B"] =
      Except.error (ApplyError.missingSecret "B") := by
    simp [resolveBindings, hA, hB]
  exact ⟨by simp [applyService, hres], by simp [applyService, hres]⟩

/-- C7 witness: with a resolver that only knows "A", apply on the service
with variables "A" and "B" fails naming "B" with the repository applied. -/
theorem C7_missing_secret_names_var_witness :
    applyService ⟨"svc", ["A", "B"], "latest"⟩
        (fun k => if k = "A" then some "va" else none) =
      ([Resource.repository "svc"],
       Except.error (ApplyError.missingSecret "B")) ∧
    Resource.repository "svc" ∈
      (applyService ⟨"svc", ["A", "B"], "latest"⟩
        (fun k => if k = "A" then some "va" else none)).1 :=
  C7_missing_secret_names_var "svc" "latest"
    (fun k => if k = "A" then some "va" else none) "va"
    (by simp) (by simp)

/-- C8: the concrete environment-variable list the entry point passes to
the facade contains exactly eighteen names, pairwise distinct and all
non-empty, so the caller satisfies the validation precondition of the
facade. -/
theorem C8_environment_vars_well_formed :
    environment_vars.length = 18 ∧ environment_vars.Nodup ∧
      ∀ v ∈ environment_vars, v ≠ "" := by decide

/-- C9: when IMAGE_TAG is present but set to the empty string, the entry
point passes the empty string as the image tag, not "latest": the default
applies only when the variable is entirely absent. -/
theorem C9_empty_tag_is_not_defaulted (env : Env)
    (h : env "IMAGE_TAG" = some "") : image_tag env = "" := by
  simp [image_tag, getenv, h]

/-- C9 witness: an environment with IMAGE_TAG set to the empty string. -/
theorem C9_empty_tag_is_not_defaulted_witness :
    image_tag (fun _ => some "") = "" :=
  C9_empty_tag_is_not_defaulted (fun _ => some "") rfl

/-- C10: for any two process environments agreeing on IMAGE_TAG (value or
absence), the entry point constructs the facade with identical arguments;
the service name and the variable list are fixed constants, and only the
tag argument depends on the environment, solely through IMAGE_TAG. -/
theorem C10_env_noninterference (e1 e2 : Env)
    (h : e1 "IMAGE_TAG" = e2 "IMAGE_TAG") :
    facadeArguments e1 = facadeArguments e2 ∧
    (facadeArguments e1).1 = "viral-vault" ∧
    (facadeArguments e1).2.1 = environment_vars := by
  exact ⟨by simp [facadeArguments, image_tag, getenv, h], rfl, rfl⟩

/-- C10 witness: two environments that differ everywhere except on
IMAGE_TAG produce identical facade arguments. -/
theorem C10_env_noninterference_witness :
    facadeArguments (fun k => if k = "IMAGE_TAG" then some "t1" else some "x")
      = facadeArguments (fun k => if k = "IMAGE_TAG" then some "t1" else none)
    ∧ (facadeArguments
        (fun k => if k = "IMAGE_TAG" then some "t1" else some "x")).1
      = "viral-vault"
    ∧ (facadeArguments
        (fun k => if k = "IMAGE_TAG" then some "t1" else some "x")).2.1
      = environment_vars :=
  C10_env_noninterference
    (fun k => if k = "IMAGE_TAG" then some "t1" else some "x")
    (fun k => if k = "IMAGE_TAG" then some "t1" else none) (by simp)

end ViralVault
